import Mathlib

/-!
Shallow embedding of the iframe messaging/resize protocol of
react-iframe-auto-resizing-sample.

Source files embedded:
- src/src/utils/iframeMessaging.ts (message model, origin validator, createMessage)
- src/unnamed/part_002 (host-side hook useIframeMessaging: dispatcher,
  request/response correlator, cleanup)
- src/src/hooks/useIframeContentMessaging.ts (embed-side hook: dispatcher,
  handler registry, sendResponse, resize notifier)
- src/src/hooks/useIframeResize.ts (host-side resize/messaging hook variant)
- src/src/hooks/useIframeContentResize.ts (embed-side resize-only hook variant)

Modelling conventions: JavaScript values reachable by the dispatch logic are
modelled with typed optional fields (a field that is absent or has the wrong
runtime type is `none`); message payloads, which the dispatchers inspect only
through the properties `init` and `channelId`, are modelled by `JsVal`.
Promise settlement is modelled as an append-only log of resolve/reject
invocations keyed by requestId, so "exactly once" is a statement about the
length of the log. Timer ids are opaque naturals; `clearTimeout` is modelled
by recording the cleared id.
-/

namespace IframeSample

/-- Model of a JavaScript runtime value as touched by this code base: the
dispatchers read only the `init` and `channelId` properties of a payload
object, so objects are modelled with those two fields plus an opaque tag for
the rest of the object. -/
inductive JsVal where
  | jundefined : JsVal
  | jnull : JsVal
  | jbool (b : Bool) : JsVal
  | jnum (n : Int) : JsVal
  | jstr (s : String) : JsVal
  | jobj (fInit : JsVal) (fChannelId : JsVal) (extra : Int) : JsVal
deriving DecidableEq, Repr

/-- JavaScript truthiness of a modelled value. -/
def JsVal.truthy : JsVal → Bool
  | .jundefined => false
  | .jnull => false
  | .jbool b => b
  | .jnum n => n != 0
  | .jstr s => s != ""
  | .jobj _ _ _ => true

/-- Property read `v.init` (undefined on non-objects, as in JS). -/
def JsVal.fieldInit : JsVal → JsVal
  | .jobj i _ _ => i
  | _ => .jundefined

/-- Property read `v.channelId` (undefined on non-objects, as in JS). -/
def JsVal.fieldChannelId : JsVal → JsVal
  | .jobj _ c _ => c
  | _ => .jundefined

/-- Truthiness of an optional string field (JS `!!e`): undefined and the
empty string are falsy. -/
def optTruthy : Option String → Bool
  | none => false
  | some s => s != ""

/-- JS `e || d` on an optional string: the default is taken when `e` is
undefined or the empty string. -/
def jsOrDefault (e : Option String) (d : String) : String :=
  match e with
  | none => d
  | some s => if s != "" then s else d

-- The MessageType enum values of src/src/utils/iframeMessaging.ts.
namespace MessageType

def RESIZE : String := "resize"

def DATA : String := "data"

def ACTION : String := "action"

def REQUEST : String := "request"

def RESPONSE : String := "response"

end MessageType

/-- The non-stamped fields of a wire message (TS `Omit` of type, channelId and
timestamp): height, payload, action, requestId, success, error. A field that
is absent on the wire (or not of the declared runtime type, for `height`, whose
consumers guard with a typeof check) is `none`. -/
structure MsgFields where
  height : Option Int := none
  payload : JsVal := .jundefined
  action : Option String := none
  requestId : Option String := none
  success : Option Bool := none
  error : Option String := none
deriving DecidableEq, Repr

/-- A wire message as delivered by the native transport. `type` and
`channelId` are optional because arbitrary window messages reach the
dispatchers. -/
structure Msg extends MsgFields where
  type : Option String := none
  channelId : Option String := none
  timestamp : Option Nat := none
deriving DecidableEq, Repr

/-- A native message event: declared origin plus data. -/
structure MessageEvent where
  origin : String
  data : Msg
deriving DecidableEq, Repr

/-- Model of the browser URL builtin restricted to what the code uses:
`new URL(u, base).origin`. An absolute http(s) URL keeps its own
scheme-and-host part (everything before the first slash after the scheme);
a relative URL resolves to the origin of the base. The scheme test returns
the matched scheme characters. -/
def schemeChars (u : List Char) : Option (List Char) :=
  if List.isPrefixOf ("http://".data) u then some ("http://".data)
  else if List.isPrefixOf ("https://".data) u then some ("https://".data)
  else none

/-- An absolute http(s) URL starts with a scheme. -/
def isAbsoluteUrl (u : String) : Bool :=
  (schemeChars u.data).isSome

/-- Origin (scheme://host[:port]) of an absolute http(s) URL: the scheme plus
everything up to the first slash after it. On input without a scheme (never
the case for the bases this code supplies, which are document origins) the
input is returned unchanged. -/
def originOfAbsolute (u : String) : String :=
  match schemeChars u.data with
  | some p =>
      String.mk (p ++ (u.data.drop p.length).takeWhile (fun c => c != '/'))
  | none => u

/-- Model of `new URL(u, base).origin` where `base` is the document's own
origin. -/
def resolveOrigin (u : String) (base : String) : String :=
  if isAbsoluteUrl u then originOfAbsolute u else originOfAbsolute base

/-- src/src/utils/iframeMessaging.ts isValidMessageOrigin: wildcard accepts
everything, otherwise the allowed origin is resolved against the document's
own origin (`selfOrigin` stands for window.location.origin) and compared for
equality with the event's declared origin. -/
def isValidMessageOrigin (selfOrigin : String) (event : MessageEvent)
    (allowedOrigin : String) : Bool :=
  if allowedOrigin == "*" then true
  else event.origin == resolveOrigin allowedOrigin selfOrigin

/-- src/src/utils/iframeMessaging.ts createMessage: stamps type, channelId and
timestamp (epoch millis, passed here as `now`) onto the caller's fields. -/
def createMessage (type_ : String) (channelId : String) (now : Nat)
    (fields : MsgFields) : Msg :=
  { toMsgFields := fields, type := some type_, channelId := some channelId,
    timestamp := some now }

/-- Association-list model of a JS Map: get. -/
def mapGet {α : Type} (m : List (String × α)) (k : String) : Option α :=
  (m.find? (fun p => p.1 == k)).map Prod.snd

/-- Association-list model of a JS Map: delete. -/
def mapDelete {α : Type} (m : List (String × α)) (k : String) :
    List (String × α) :=
  m.filter (fun p => p.1 != k)

/-- Association-list model of a JS Map: set (replacing any previous binding). -/
def mapSet {α : Type} (m : List (String × α)) (k : String) (v : α) :
    List (String × α) :=
  (k, v) :: mapDelete m k

/-- One recorded invocation of a pending request's resolve or reject
continuation. -/
inductive Settle where
  | resolved (payload : JsVal) : Settle
  | rejected (error : String) : Settle
deriving DecidableEq, Repr

/-- Number of resolve/reject invocations recorded for a given requestId. -/
def settleCount (log : List (String × Settle)) (rid : String) : Nat :=
  (log.filter (fun p => p.1 == rid)).length

/-- The timeout rejection message of src/unnamed/part_002 sendRequest. -/
def timeoutError (timeoutMs : Nat) : String :=
  "Request timed out after " ++ toString timeoutMs ++ "ms"

namespace Host

/-- A pending-request record of src/unnamed/part_002 (the resolve/reject
closures are represented by the settlement log keyed by requestId). -/
structure PendingEntry where
  timeout : Nat
deriving DecidableEq, Repr

/-- Configuration of one useIframeMessaging instance (src/unnamed/part_002):
the document's own origin, the resolved target origin, the bound channel id,
and whether an onMessage callback is configured. -/
structure Config where
  selfOrigin : String
  targetOrigin : String
  channelId : String
  onMessage : Bool
deriving DecidableEq, Repr

/-- Mutable state of one useIframeMessaging instance: React state
(iframeHeight, loading), the pending-request map, the settlement log of all
resolve/reject invocations, and the list of timer ids passed to
clearTimeout. -/
structure State where
  iframeHeight : Int
  loading : Bool
  pending : List (String × PendingEntry)
  settled : List (String × Settle)
  clearedTimers : List Nat
deriving DecidableEq, Repr

/-- Externally observable effects of one host dispatch: the height passed to
handleIframeResize, and the message passed to the onMessage callback. -/
structure Effects where
  resized : Option Int := none
  onMessageCalled : Option Msg := none
deriving DecidableEq, Repr

/-- src/unnamed/part_002 handleIframeResize: store the height and clear the
loading flag. -/
def handleIframeResize (st : State) (height : Int) : State :=
  { st with iframeHeight := height, loading := false }

/-- src/unnamed/part_002 sendRequest: register a pending entry holding the
armed timer id under a fresh requestId and emit the Request message (`now` is
the stamping time, `timerId` the id returned by setTimeout). -/
def sendRequest (cfg : Config) (st : State) (rid : String) (timerId : Nat)
    (action : String) (payload : JsVal) (now : Nat) : State × Msg :=
  ({ st with pending := mapSet st.pending rid { timeout := timerId } },
   createMessage MessageType.REQUEST cfg.channelId now
     { requestId := some rid, action := some action, payload := payload })

/-- src/unnamed/part_002, the setTimeout callback inside sendRequest: if the
entry is still pending, delete it and reject with the timeout error;
otherwise do nothing. -/
def fireTimeout (timeoutMs : Nat) (rid : String) (st : State) : State :=
  match mapGet st.pending rid with
  | some _ =>
      { st with
        pending := mapDelete st.pending rid,
        settled := st.settled ++ [(rid, Settle.rejected (timeoutError timeoutMs))] }
  | none => st

/-- src/unnamed/part_002 handleMessage: origin check, channel filter, then
switch on the message type (RESIZE updates layout state, RESPONSE drives the
correlator, everything else goes to the onMessage callback). -/
def handleMessage (cfg : Config) (st : State) (ev : MessageEvent) :
    State × Effects :=
  if !(isValidMessageOrigin cfg.selfOrigin ev cfg.targetOrigin) then (st, {})
  else
    let m := ev.data
    if m.channelId != some cfg.channelId then (st, {})
    else if m.type == some MessageType.RESIZE then
      match m.height with
      | some h => (handleIframeResize st h, { resized := some h })
      | none => (st, {})
    else if m.type == some MessageType.RESPONSE then
      match m.requestId with
      | none => (st, {})
      | some rid =>
        match mapGet st.pending rid with
        | none => (st, {})
        | some entry =>
          let st1 : State :=
            { st with
              clearedTimers := st.clearedTimers ++ [entry.timeout],
              pending := mapDelete st.pending rid }
          if m.success == some true then
            ({ st1 with
               settled := st1.settled ++ [(rid, Settle.resolved m.payload)] }, {})
          else
            ({ st1 with
               settled := st1.settled ++
                 [(rid, Settle.rejected (jsOrDefault m.error "Unknown error"))] },
             {})
    else
      (st, if cfg.onMessage then { onMessageCalled := some m } else {})

/-- src/unnamed/part_002, the cleanup function of the listener effect:
clearTimeout on every pending entry, then clear the map. The resolve/reject
closures are not invoked. -/
def cleanup (st : State) : State :=
  { st with
    clearedTimers := st.clearedTimers ++ st.pending.map (fun p => p.2.timeout),
    pending := [] }

end Host

/-- Outcome of running an action handler (or the onAction fallback): the
awaited result, or a thrown/rejected error whose message is the string the
catch block extracts. -/
inductive HandlerOutcome where
  | ok (result : JsVal) : HandlerOutcome
  | err (msg : String) : HandlerOutcome

namespace Embed

/-- An entry of the embed-side action handler registry. -/
def Handler : Type := JsVal → HandlerOutcome

/-- Configuration of one useIframeContentMessaging instance
(src/src/hooks/useIframeContentMessaging.ts): the document's own origin, the
target origin (default the wildcard), whether an onMessage callback is
configured, and the optional onAction fallback (which receives the action
name as it arrives on the wire, so possibly absent). -/
structure Config where
  selfOrigin : String
  targetOrigin : String
  onMessage : Bool
  onAction : Option (Option String → JsVal → HandlerOutcome)

/-- Mutable state of one useIframeContentMessaging instance: the channel id
(null until the init message arrives), the loading flag, and the action
handler registry. -/
structure State where
  channelId : Option String
  loading : Bool
  actionHandlers : List (String × Handler)

/-- Externally observable effects of one embed dispatch: messages posted to
the parent window, the message passed to the onMessage callback, the action
name whose registered handler ran, and whether the onAction fallback ran. -/
structure Effects where
  posted : List Msg := []
  onMessageCalled : Option Msg := none
  handlerRan : Option String := none
  fallbackRan : Bool := false
deriving DecidableEq, Repr

/-- The error string `No handler registered for action '<a>'` (the quotes are
single quotation marks, written here by character code). -/
def noHandlerError (a : String) : String :=
  "No handler registered for action \x27" ++ a ++ "\x27"

/-- src/src/hooks/useIframeContentMessaging.ts sendResponse followed by
sendMessage: when a channel id is bound, posts one Response whose success flag
is the negated truthiness of the error argument; with no bound channel the
guard in sendMessage drops the send. `now` is the stamping time. The
requestId is passed through as it arrived on the wire (possibly absent). -/
def sendResponse (st : State) (now : Nat) (requestId : Option String)
    (payload : JsVal) (error : Option String) : List Msg :=
  match st.channelId with
  | none => []
  | some c =>
      [createMessage MessageType.RESPONSE c now
        { requestId := requestId, success := some (!(optTruthy error)),
          payload := payload, error := error }]

/-- src/src/hooks/useIframeContentMessaging.ts notifyParentAboutHeight: posts
a Resize message with the measured scroll height when a channel id is bound
(the content-element presence guard is modelled by the height being
measurable). -/
def notifyParentAboutHeight (st : State) (now : Nat) (height : Int) :
    List Msg :=
  match st.channelId with
  | none => []
  | some c =>
      [createMessage MessageType.RESIZE c now { height := some height }]

/-- src/src/hooks/useIframeContentMessaging.ts registerActionHandler: last
registration for a name wins. -/
def registerActionHandler (st : State) (action : String) (h : Handler) :
    State :=
  { st with actionHandlers := mapSet st.actionHandlers action h }

/-- The init branch of the embed handleMessage: the payload must be truthy,
have a truthy `init` property and a truthy `channelId` property. The stored
channel id is modelled for the string case, the only shape this system sends
(the host init message carries the host's string channel id). -/
def initChannelOf (p : JsVal) : Option String :=
  if p.truthy && p.fieldInit.truthy then
    match p.fieldChannelId with
    | .jstr s => if s != "" then some s else none
    | _ => none
  else none

/-- Handler registry lookup for the action name as it arrived on the wire
(a JS Map.get with an undefined key finds nothing: handlers are registered
under string names only). -/
def lookupHandler (st : State) (a : Option String) : Option Handler :=
  match a with
  | some name => mapGet st.actionHandlers name
  | none => none

/-- The ACTION case of the embed handleMessage switch: run the registered
handler, else the onAction fallback, else for messages that carry a requestId
synthesize a failure Response; a Response is sent back exactly when
`requestId` is a property of the message. -/
def routeAction (cfg : Config) (st : State) (now : Nat) (m : Msg) :
    State × Effects :=
  match lookupHandler st m.action with
  | some h =>
      match h m.payload with
      | .ok result =>
          if m.requestId.isSome then
            (st, { posted := sendResponse st now m.requestId result none,
                   handlerRan := m.action })
          else (st, { handlerRan := m.action })
      | .err emsg =>
          if m.requestId.isSome then
            (st, { posted := sendResponse st now m.requestId .jundefined (some emsg),
                   handlerRan := m.action })
          else (st, { handlerRan := m.action })
  | none =>
      match cfg.onAction with
      | some f =>
          match f m.action m.payload with
          | .ok result =>
              if m.requestId.isSome then
                (st, { posted := sendResponse st now m.requestId result none,
                       fallbackRan := true })
              else (st, { fallbackRan := true })
          | .err emsg =>
              if m.requestId.isSome then
                (st, { posted := sendResponse st now m.requestId .jundefined (some emsg),
                       fallbackRan := true })
              else (st, { fallbackRan := true })
      | none =>
          if m.requestId.isSome then
            (st, { posted := sendResponse st now m.requestId .jundefined
                     (some (noHandlerError (m.action.getD "undefined"))) })
          else (st, {})

/-- The REQUEST case of the embed handleMessage switch: run the registered
handler, else the onAction fallback, else synthesize a failure Response; a
Response is always sent back (with the requestId as it arrived). -/
def routeRequest (cfg : Config) (st : State) (now : Nat) (m : Msg) :
    State × Effects :=
  match lookupHandler st m.action with
  | some h =>
      match h m.payload with
      | .ok result =>
          (st, { posted := sendResponse st now m.requestId result none,
                 handlerRan := m.action })
      | .err emsg =>
          (st, { posted := sendResponse st now m.requestId .jundefined (some emsg),
                 handlerRan := m.action })
  | none =>
      match cfg.onAction with
      | some f =>
          match f m.action m.payload with
          | .ok result =>
              (st, { posted := sendResponse st now m.requestId result none,
                     fallbackRan := true })
          | .err emsg =>
              (st, { posted := sendResponse st now m.requestId .jundefined (some emsg),
                     fallbackRan := true })
      | none =>
          (st, { posted := sendResponse st now m.requestId .jundefined
                   (some (noHandlerError (m.action.getD "undefined"))) })

/-- The switch of the embed handleMessage, reached after the origin check,
the init branch and the channel filter: ACTION and REQUEST are routed to the
handler registry, everything else to the onMessage callback. -/
def route (cfg : Config) (st : State) (now : Nat) (m : Msg) :
    State × Effects :=
  if m.type == some MessageType.ACTION then routeAction cfg st now m
  else if m.type == some MessageType.REQUEST then routeRequest cfg st now m
  else (st, if cfg.onMessage then { onMessageCalled := some m } else {})

/-- The channel filter of the embed handleMessage: drop unless a channel id is
bound and the message carries exactly it. -/
def filterAndRoute (cfg : Config) (st : State) (now : Nat) (m : Msg) :
    State × Effects :=
  match st.channelId with
  | none => (st, {})
  | some c =>
      if m.channelId != some c then (st, {})
      else route cfg st now m

/-- src/src/hooks/useIframeContentMessaging.ts handleMessage: origin check,
then the initialization branch (a Data message carrying `init` and
`channelId` while no channel is bound sets the channel id and returns), then
the channel filter, then the switch. -/
def handleMessage (cfg : Config) (st : State) (now : Nat)
    (ev : MessageEvent) : State × Effects :=
  if !(isValidMessageOrigin cfg.selfOrigin ev cfg.targetOrigin) then (st, {})
  else
    let m := ev.data
    if st.channelId.isNone && (m.type == some MessageType.DATA) then
      match initChannelOf m.payload with
      | some c => ({ st with channelId := some c }, {})
      | none => filterAndRoute cfg st now m
    else filterAndRoute cfg st now m

end Embed

namespace ResizeHook

/-- Configuration of one useIframeResize instance
(src/src/hooks/useIframeResize.ts): the document's own origin, the iframe
URL (whose resolved origin is the accepted sender origin), and the optional
channel id. -/
structure Config where
  selfOrigin : String
  url : String
  channelId : Option String
deriving DecidableEq, Repr

/-- React state of one useIframeResize instance. -/
structure State where
  iframeHeight : Int
  loading : Bool
deriving DecidableEq, Repr

/-- Externally observable effects of one useIframeResize dispatch: the height
passed to handleIframeResize and the message delivered to every registered
message callback. -/
structure Effects where
  resized : Option Int := none
  deliveredToCallbacks : Option Msg := none
deriving DecidableEq, Repr

/-- src/src/hooks/useIframeResize.ts handleIframeResize: store the height and
clear the loading flag. -/
def handleIframeResize (st : State) (height : Int) : State :=
  { st with iframeHeight := height, loading := false }

/-- src/src/hooks/useIframeResize.ts handleMessage: accept only the iframe
URL's origin, filter by channel id when one is configured, then switch on the
type (resize updates layout state; data and action go to every registered
callback; anything else is ignored). -/
def handleMessage (cfg : Config) (st : State) (ev : MessageEvent) :
    State × Effects :=
  if ev.origin != resolveOrigin cfg.url cfg.selfOrigin then (st, {})
  else
    let m := ev.data
    if (match cfg.channelId with
        | some c => m.channelId != some c
        | none => false) then (st, {})
    else if m.type == some MessageType.RESIZE then
      match m.height with
      | some h => (handleIframeResize st h, { resized := some h })
      | none => (st, {})
    else if (m.type == some MessageType.DATA)
        || (m.type == some MessageType.ACTION) then
      (st, { deliveredToCallbacks := some m })
    else (st, {})

end ResizeHook

namespace ContentResize

/-- src/src/hooks/useIframeContentResize.ts notifyParentAboutHeight: posts
`\x7b type: resize, height, channelId \x7d` verbatim — the channelId prop is
optional and is copied into the message as is (undefined when not
configured), and no timestamp is stamped. -/
def notifyMsg (channelId : Option String) (height : Int) : Msg :=
  { type := some MessageType.RESIZE, channelId := channelId,
    height := some height }

end ContentResize

/-! Concrete fixtures used by witness and counterexample theorems. -/

/-- A host instance bound to channel abc, wildcard target origin, with an
onMessage callback configured. -/
def exHostCfg : Host.Config :=
  { selfOrigin := "https://host.example", targetOrigin := "*",
    channelId := "abc", onMessage := true }

/-- A host state holding one pending request r1 whose timer id is 5 and
whose promise is unsettled. -/
def exHostState : Host.State :=
  { iframeHeight := 300, loading := true,
    pending := [("r1", { timeout := 5 })], settled := [], clearedTimers := [] }

/-- A matching successful Response for request r1 on channel abc. -/
def exRespEv : MessageEvent :=
  { origin := "https://child.example",
    data := { type := some MessageType.RESPONSE, channelId := some "abc",
              requestId := some "r1", success := some true,
              payload := .jnum 7 } }

/-- A Data message on the foreign channel xyz. -/
def exCrossEv : MessageEvent :=
  { origin := "https://child.example",
    data := { type := some MessageType.DATA, channelId := some "xyz",
              payload := .jnum 1 } }

/-- A useIframeResize instance bound to channel abc. -/
def exRCfg : ResizeHook.Config :=
  { selfOrigin := "https://host.example",
    url := "https://child.example/page", channelId := some "abc" }

/-- A useIframeResize state. -/
def exRState : ResizeHook.State := { iframeHeight := 300, loading := true }

/-- An embed instance with wildcard target origin, an onMessage callback and
no onAction fallback. -/
def exEmbedCfg : Embed.Config :=
  { selfOrigin := "https://child.example", targetOrigin := "*",
    onMessage := true, onAction := none }

/-- An embed state bound to channel abc with an empty handler registry. -/
def exEmbedState : Embed.State :=
  { channelId := some "abc", loading := false, actionHandlers := [] }

/-- A Resize message on channel abc as received by the embed (a message the
protocol reserves for the child-to-parent direction). -/
def exResizeEv : MessageEvent :=
  { origin := "https://host.example",
    data := { type := some MessageType.RESIZE, channelId := some "abc",
              height := some 620 } }

/-- A Request on channel abc for the unhandled action doThing. -/
def exReqEv : MessageEvent :=
  { origin := "https://host.example",
    data := { type := some MessageType.REQUEST, channelId := some "abc",
              action := some "doThing", requestId := some "r1" } }

/-- A fire-and-forget Action on channel abc for the unhandled action
doThing. -/
def exActEv : MessageEvent :=
  { origin := "https://host.example",
    data := { type := some MessageType.ACTION, channelId := some "abc",
              action := some "doThing" } }

/-! Helper lemmas shared by the claim theorems. -/

theorem mapGet_mapDelete_self {α : Type} (m : List (String × α)) (k : String) :
    mapGet (mapDelete m k) k = none := by
  have hf : List.find? (fun p => p.1 == k) (mapDelete m k) = none := by
    rw [List.find?_eq_none]
    intro x hx
    simp only [mapDelete] at hx
    have hx2 : (x.1 != k) = true := (List.mem_filter.mp hx).2
    simp only [bne_iff_ne] at hx2
    simp [hx2]
  simp [mapGet, hf]

theorem settleCount_append_single (l : List (String × Settle)) (rid : String)
    (s : Settle) :
    settleCount (l ++ [(rid, s)]) rid = settleCount l rid + 1 := by
  simp [settleCount, List.filter_append]

theorem noHandlerError_ne_empty (a : String) : Embed.noHandlerError a ≠ "" := by
  intro h
  have hlen : (Embed.noHandlerError a).length = 0 := by rw [h]; rfl
  rw [Embed.noHandlerError, String.length_append, String.length_append] at hlen
  have hq : ("\x27" : String).length = 1 := rfl
  omega

theorem optTruthy_noHandlerError (a : String) :
    optTruthy (some (Embed.noHandlerError a)) = true := by
  simp [optTruthy, bne_iff_ne, noHandlerError_ne_empty a]

/-! Claim theorems. -/

/-- C9: the host-side resize handler is idempotent on the observed height:
applying handleIframeResize twice with the same height (in both host hook
variants, src/unnamed/part_002 and src/src/hooks/useIframeResize.ts) yields
the same state as applying it once — height set to the given value, loading
cleared — and raises no error. -/
theorem C9_handleIframeResize_idempotent :
    ∀ (st : Host.State) (st2 : ResizeHook.State) (h : Int),
      Host.handleIframeResize (Host.handleIframeResize st h) h
        = Host.handleIframeResize st h
      ∧ (Host.handleIframeResize st h).iframeHeight = h
      ∧ (Host.handleIframeResize st h).loading = false
      ∧ ResizeHook.handleIframeResize (ResizeHook.handleIframeResize st2 h) h
        = ResizeHook.handleIframeResize st2 h
      ∧ (ResizeHook.handleIframeResize st2 h).iframeHeight = h
      ∧ (ResizeHook.handleIframeResize st2 h).loading = false := by
  intro st st2 h
  exact ⟨rfl, rfl, rfl, rfl, rfl, rfl⟩

/-- C8 counterexample: the claim says every send path, including the
embed-side resize notifier, includes a defined channelId string in the posted
message; but the notifier of src/src/hooks/useIframeContentResize.ts copies
its optional channelId prop verbatim, so with no configured channel id it
posts a resize message whose channelId is undefined (and it stamps no
timestamp either). -/
theorem C8_counterexample :
    (ContentResize.notifyMsg none 300).channelId = none
    ∧ (ContentResize.notifyMsg none 300).timestamp = none := ⟨rfl, rfl⟩

/-- C8 amended: createMessage stamps the channel id and a timestamp into
every message it builds, and the useIframeContentMessaging send paths
(response sender and resize notifier), which are guarded on a bound channel,
always post messages carrying exactly the bound channel id; the standalone
useIframeContentResize notifier instead copies its optional channelId prop
verbatim into the posted message, so its channelId is defined only when one
was configured. -/
theorem C8_amended_channel_stamping (t c : String) (now : Nat)
    (f : MsgFields) (st : Embed.State) (hc : st.channelId = some c)
    (rid : Option String) (p : JsVal) (e : Option String) (h : Int)
    (cid : Option String) :
    (createMessage t c now f).channelId = some c
    ∧ (createMessage t c now f).timestamp = some now
    ∧ (Embed.sendResponse st now rid p e).map (fun m => m.channelId)
        = [some c]
    ∧ (Embed.notifyParentAboutHeight st now h).map (fun m => m.channelId)
        = [some c]
    ∧ (ContentResize.notifyMsg cid h).channelId = cid := by
  refine ⟨rfl, rfl, ?_, ?_, rfl⟩
  · simp [Embed.sendResponse, hc, createMessage]
  · simp [Embed.notifyParentAboutHeight, hc, createMessage]

/-- C10: every Response emitted by the embed-side sendResponse has
success = true exactly when the error argument is falsy; in particular an
empty-string error yields success = true, indistinguishable on the success
flag from no error at all. -/
theorem C10_sendResponse_success_iff_falsy_error (st : Embed.State)
    (c : String) (hc : st.channelId = some c) (now : Nat)
    (rid : Option String) (p : JsVal) (e : Option String) :
    (Embed.sendResponse st now rid p e).map (fun m => m.success)
      = [some (!(optTruthy e))]
    ∧ (Embed.sendResponse st now rid p e).map (fun m => m.error) = [e]
    ∧ (Embed.sendResponse st now rid p (some "")).map (fun m => m.success)
      = [some true]
    ∧ (Embed.sendResponse st now rid p (some "")).map (fun m => m.success)
      = (Embed.sendResponse st now rid p none).map (fun m => m.success) := by
  refine ⟨?_, ?_, ?_, ?_⟩ <;>
    simp [Embed.sendResponse, hc, createMessage, optTruthy]

/-- C8 amended, witness at concrete inputs: the bound embed instance and the
content-resize notifier with a configured channel id. -/
theorem C8_amended_witness :
    exEmbedState.channelId = some "abc"
    ∧ ((createMessage MessageType.DATA "abc" 42 {}).channelId = some "abc"
       ∧ (createMessage MessageType.DATA "abc" 42 {}).timestamp = some 42
       ∧ (Embed.sendResponse exEmbedState 42 (some "r1") (.jnum 7) none).map
           (fun m => m.channelId) = [some "abc"]
       ∧ (Embed.notifyParentAboutHeight exEmbedState 42 620).map
           (fun m => m.channelId) = [some "abc"]
       ∧ (ContentResize.notifyMsg (some "abc") 620).channelId
           = some "abc") :=
  ⟨rfl, C8_amended_channel_stamping MessageType.DATA "abc" 42 {} exEmbedState
    rfl (some "r1") (.jnum 7) none 620 (some "abc")⟩

/-- C10 witness at concrete inputs: an empty-string error yields a Response
with success true. -/
theorem C10_witness :
    exEmbedState.channelId = some "abc"
    ∧ ((Embed.sendResponse exEmbedState 1 (some "r1") .jundefined
          (some "")).map (fun m => m.success)
        = [some (!(optTruthy (some "")))]
       ∧ (Embed.sendResponse exEmbedState 1 (some "r1") .jundefined
            (some "")).map (fun m => m.error) = [some ""]
       ∧ (Embed.sendResponse exEmbedState 1 (some "r1") .jundefined
            (some "")).map (fun m => m.success) = [some true]
       ∧ (Embed.sendResponse exEmbedState 1 (some "r1") .jundefined
            (some "")).map (fun m => m.success)
          = (Embed.sendResponse exEmbedState 1 (some "r1") .jundefined none).map
              (fun m => m.success)) :=
  ⟨rfl, C10_sendResponse_success_iff_falsy_error exEmbedState "abc" rfl 1
    (some "r1") .jundefined (some "")⟩

/-- C1: a message carrying channel id c1 is never dispatched by a listener
bound to a different channel id c2: the host dispatcher of
src/unnamed/part_002, the host dispatcher of src/src/hooks/useIframeResize.ts
(when a channel id is configured) and the embed dispatcher of
src/src/hooks/useIframeContentMessaging.ts all return with state unchanged
and no handler, callback or send effect. -/
theorem C1_cross_channel_dropped (c1 c2 : String) (hne : c1 ≠ c2)
    (ev : MessageEvent) (hm : ev.data.channelId = some c1)
    (hcfg : Host.Config) (hst : Host.State)
    (rcfg : ResizeHook.Config) (rst : ResizeHook.State)
    (ecfg : Embed.Config) (est : Embed.State) (now : Nat) :
    (hcfg.channelId = c2 → Host.handleMessage hcfg hst ev = (hst, {}))
    ∧ (rcfg.channelId = some c2 →
        ResizeHook.handleMessage rcfg rst ev = (rst, {}))
    ∧ (est.channelId = some c2 →
        Embed.handleMessage ecfg est now ev = (est, {})) := by
  have hbne : (some c1 != some c2) = true := by simp [bne_iff_ne, hne]
  refine ⟨?_, ?_, ?_⟩
  · intro hb
    unfold Host.handleMessage
    cases ho : isValidMessageOrigin hcfg.selfOrigin ev hcfg.targetOrigin
    · simp
    · simp [hm, hb, hbne]
  · intro hb
    unfold ResizeHook.handleMessage
    cases ho : (ev.origin != resolveOrigin rcfg.url rcfg.selfOrigin)
    · simp [ho, hb, hm, hbne]
    · simp [ho]
  · intro hb
    unfold Embed.handleMessage
    cases ho : isValidMessageOrigin ecfg.selfOrigin ev ecfg.targetOrigin
    · simp
    · simp [hb, Embed.filterAndRoute, hm, hbne]

/-- C1 witness at concrete inputs: a Data message on channel xyz is dropped
by all three listeners bound to channel abc. -/
theorem C1_witness :
    ("xyz" : String) ≠ "abc"
    ∧ exCrossEv.data.channelId = some "xyz"
    ∧ Host.handleMessage exHostCfg exHostState exCrossEv = (exHostState, {})
    ∧ ResizeHook.handleMessage exRCfg exRState exCrossEv = (exRState, {})
    ∧ Embed.handleMessage exEmbedCfg exEmbedState 0 exCrossEv
        = (exEmbedState, {}) := by
  have h := C1_cross_channel_dropped "xyz" "abc" (by decide) exCrossEv rfl
    exHostCfg exHostState exRCfg exRState exEmbedCfg exEmbedState 0
  exact ⟨by decide, rfl, h.1 rfl, h.2.1 rfl, h.2.2 rfl⟩

/-- C4: isValidMessageOrigin accepts everything under the wildcard, and
otherwise accepts exactly the origin obtained by resolving the allowed origin
against the document's own origin; consequently both dispatchers return with
state unchanged and no effects on any message whose declared origin fails the
check, before any routing by kind. -/
theorem C4_origin_validation (selfO : String) (ev : MessageEvent)
    (allowed : String) (hcfg : Host.Config) (hst : Host.State)
    (ecfg : Embed.Config) (est : Embed.State) (now : Nat) :
    (isValidMessageOrigin selfO ev "*" = true)
    ∧ (allowed ≠ "*" →
        isValidMessageOrigin selfO ev allowed
          = (ev.origin == resolveOrigin allowed selfO))
    ∧ (isValidMessageOrigin hcfg.selfOrigin ev hcfg.targetOrigin = false →
        Host.handleMessage hcfg hst ev = (hst, {}))
    ∧ (isValidMessageOrigin ecfg.selfOrigin ev ecfg.targetOrigin = false →
        Embed.handleMessage ecfg est now ev = (est, {})) := by
  refine ⟨rfl, ?_, ?_, ?_⟩
  · intro hne
    simp [isValidMessageOrigin, hne]
  · intro hbad
    unfold Host.handleMessage
    simp [hbad]
  · intro hbad
    unfold Embed.handleMessage
    simp [hbad]

/-- C4 witness at concrete inputs: the wildcard accepts any origin; a
non-wildcard target origin resolves and compares exactly; a message from a
mismatched origin is dropped by both dispatchers. -/
theorem C4_witness :
    isValidMessageOrigin "https://host.example" exCrossEv "*" = true
    ∧ (("https://child.example/page" : String) ≠ "*"
       ∧ isValidMessageOrigin "https://host.example" exCrossEv
           "https://child.example/page"
         = (exCrossEv.origin
             == resolveOrigin "https://child.example/page"
                  "https://host.example"))
    ∧ (isValidMessageOrigin "https://host.example" exCrossEv
         "https://other.example" = false
       ∧ Host.handleMessage
           { exHostCfg with targetOrigin := "https://other.example" }
           exHostState exCrossEv = (exHostState, {}))
    ∧ (isValidMessageOrigin "https://child.example" exCrossEv
         "https://other.example" = false
       ∧ Embed.handleMessage
           { exEmbedCfg with targetOrigin := "https://other.example" }
           exEmbedState 0 exCrossEv = (exEmbedState, {})) := by
  have h1 := C4_origin_validation "https://host.example" exCrossEv
    "https://child.example/page" exHostCfg exHostState exEmbedCfg
    exEmbedState 0
  have h2 := C4_origin_validation "https://host.example" exCrossEv
    "https://other.example"
    { exHostCfg with targetOrigin := "https://other.example" } exHostState
    { exEmbedCfg with targetOrigin := "https://other.example" }
    exEmbedState 0
  refine ⟨h1.1, ⟨by decide, h1.2.1 (by decide)⟩,
    ⟨by decide, h2.2.2.1 (by decide)⟩, ⟨by decide, h2.2.2.2 (by decide)⟩⟩

/-- C6: a Response whose requestId has no pending entry is ignored by the
host dispatcher of src/unnamed/part_002: state (pending map, settlement log,
cleared timers, layout state) is unchanged and no effect is produced. -/
theorem C6_stale_response_ignored (cfg : Host.Config) (st : Host.State)
    (ev : MessageEvent) (rid : String)
    (hty : ev.data.type = some MessageType.RESPONSE)
    (hrid : ev.data.requestId = some rid)
    (hp : mapGet st.pending rid = none) :
    Host.handleMessage cfg st ev = (st, {}) := by
  unfold Host.handleMessage
  cases ho : isValidMessageOrigin cfg.selfOrigin ev cfg.targetOrigin
  · simp
  · cases hch : (ev.data.channelId != some cfg.channelId)
    · simp [hch, hty, hrid, hp, MessageType.RESIZE, MessageType.RESPONSE]
    · simp [hch]

/-- C6 witness at concrete inputs: a Response for the never-issued request r9
leaves the host state untouched. -/
theorem C6_witness :
    ({ exRespEv with
       data := { exRespEv.data with requestId := some "r9" } }
         : MessageEvent).data.type = some MessageType.RESPONSE
    ∧ mapGet exHostState.pending "r9" = none
    ∧ Host.handleMessage exHostCfg exHostState
        { exRespEv with
          data := { exRespEv.data with requestId := some "r9" } }
        = (exHostState, {}) :=
  ⟨rfl, rfl,
    C6_stale_response_ignored exHostCfg exHostState
      { exRespEv with
        data := { exRespEv.data with requestId := some "r9" } }
      "r9" rfl rfl rfl⟩

/-- C5: on the embed side, a Request for an action with no registered handler
and no onAction fallback is answered with a failure Response carrying the
descriptive no-handler error, while a fire-and-forget Action in the same
situation is dropped without sending anything and without an error. -/
theorem C5_unhandled_request_answered_action_dropped (cfg : Embed.Config)
    (st : Embed.State) (c a rid : String) (now : Nat)
    (evR evA : MessageEvent)
    (hc : st.channelId = some c)
    (hnh : mapGet st.actionHandlers a = none)
    (hfb : cfg.onAction = none)
    (hRor : isValidMessageOrigin cfg.selfOrigin evR cfg.targetOrigin = true)
    (hRty : evR.data.type = some MessageType.REQUEST)
    (hRch : evR.data.channelId = some c)
    (hRa : evR.data.action = some a)
    (hRrid : evR.data.requestId = some rid)
    (hAor : isValidMessageOrigin cfg.selfOrigin evA cfg.targetOrigin = true)
    (hAty : evA.data.type = some MessageType.ACTION)
    (hAch : evA.data.channelId = some c)
    (hAa : evA.data.action = some a)
    (hArid : evA.data.requestId = none) :
    Embed.handleMessage cfg st now evR
      = (st, { posted := [createMessage MessageType.RESPONSE c now
          { requestId := some rid, success := some false, payload := .jundefined,
            error := some (Embed.noHandlerError a) }] })
    ∧ Embed.handleMessage cfg st now evA = (st, {}) := by
  constructor
  · simp [Embed.handleMessage, hRor, hc, Embed.filterAndRoute, hRch,
      Embed.route, hRty, MessageType.ACTION, MessageType.REQUEST,
      Embed.routeRequest, Embed.lookupHandler, hRa, hnh, hfb,
      Embed.sendResponse, hRrid, optTruthy_noHandlerError]
  · simp [Embed.handleMessage, hAor, hc, Embed.filterAndRoute, hAch,
      Embed.route, hAty, MessageType.ACTION,
      Embed.routeAction, Embed.lookupHandler, hAa, hnh, hfb, hArid]

/-- C5 witness at concrete inputs: a Request and an Action for the unhandled
action doThing against a bound embed with an empty registry and no
fallback. -/
theorem C5_witness :
    mapGet exEmbedState.actionHandlers "doThing" = none
    ∧ exEmbedCfg.onAction = none
    ∧ Embed.handleMessage exEmbedCfg exEmbedState 7 exReqEv
      = (exEmbedState,
         { posted := [createMessage MessageType.RESPONSE "abc" 7
             { requestId := some "r1", success := some false,
               payload := .jundefined,
               error := some (Embed.noHandlerError "doThing") }] })
    ∧ Embed.handleMessage exEmbedCfg exEmbedState 7 exActEv
      = (exEmbedState, {}) := by
  have h := C5_unhandled_request_answered_action_dropped exEmbedCfg
    exEmbedState "abc" "doThing" "r1" 7 exReqEv exActEv rfl rfl rfl
    rfl rfl rfl rfl rfl rfl rfl rfl rfl rfl
  exact ⟨rfl, rfl, h.1, h.2⟩

/-- C7 counterexample: the claim says an embed receiving a Resize message
drops it with no handler or callback triggered; but the embed dispatcher of
src/src/hooks/useIframeContentMessaging.ts has no RESIZE case, so a Resize
that passes the origin and channel filters falls to the default case and is
forwarded to the configured onMessage callback. -/
theorem C7_counterexample :
    (Embed.handleMessage exEmbedCfg exEmbedState 0 exResizeEv).2.onMessageCalled
      = some exResizeEv.data := rfl

/-- C7 amended: on the embed side an incoming Resize message that passes the
origin and channel filters triggers no action handler, no onAction fallback
and no outgoing message, and leaves the state unchanged; but it is not
dropped at the dispatcher: it is forwarded to the generic onMessage callback
whenever one is configured, exactly like a Data message. -/
theorem C7_amended_resize_forwarded_to_onMessage (cfg : Embed.Config)
    (st : Embed.State) (now : Nat) (ev : MessageEvent) (c : String)
    (horig : isValidMessageOrigin cfg.selfOrigin ev cfg.targetOrigin = true)
    (hc : st.channelId = some c)
    (hch : ev.data.channelId = some c)
    (hty : ev.data.type = some MessageType.RESIZE) :
    Embed.handleMessage cfg st now ev
      = (st, if cfg.onMessage then { onMessageCalled := some ev.data }
             else {}) := by
  simp [Embed.handleMessage, horig, hc, Embed.filterAndRoute, hch,
    Embed.route, hty, MessageType.ACTION, MessageType.REQUEST,
    MessageType.RESIZE, MessageType.DATA]

/-- C7 amended witness at concrete inputs: the Resize message on channel abc
reaching the bound embed with a configured onMessage callback. -/
theorem C7_amended_witness :
    exEmbedState.channelId = some "abc"
    ∧ exResizeEv.data.type = some MessageType.RESIZE
    ∧ Embed.handleMessage exEmbedCfg exEmbedState 0 exResizeEv
      = (exEmbedState,
         if exEmbedCfg.onMessage
         then { onMessageCalled := some exResizeEv.data } else {}) :=
  ⟨rfl, rfl,
    C7_amended_resize_forwarded_to_onMessage exEmbedCfg exEmbedState 0
      exResizeEv "abc" rfl rfl rfl rfl⟩

/-- Helper: the host dispatcher of src/unnamed/part_002 is a no-op on a
Response whose requestId has no pending entry. -/
theorem host_stale_response_noop (cfg : Host.Config) (st : Host.State)
    (ev : MessageEvent) (rid : String)
    (hty : ev.data.type = some MessageType.RESPONSE)
    (hrid : ev.data.requestId = some rid)
    (hp : mapGet st.pending rid = none) :
    Host.handleMessage cfg st ev = (st, {}) := by
  unfold Host.handleMessage
  cases ho : isValidMessageOrigin cfg.selfOrigin ev cfg.targetOrigin
  · simp
  · cases hch : (ev.data.channelId != some cfg.channelId)
    · simp [hch, hty, hrid, hp, MessageType.RESIZE, MessageType.RESPONSE]
    · simp [hch]

/-- Helper: what the host dispatcher of src/unnamed/part_002 does on a
matching Response for a pending request: clear the timer, delete the entry,
and settle once (resolve on success, reject with the error or the Unknown
error default otherwise). -/
theorem host_response_step (cfg : Host.Config) (st : Host.State)
    (ev : MessageEvent) (rid : String) (entry : Host.PendingEntry)
    (horig : isValidMessageOrigin cfg.selfOrigin ev cfg.targetOrigin = true)
    (hch : ev.data.channelId = some cfg.channelId)
    (hty : ev.data.type = some MessageType.RESPONSE)
    (hrid : ev.data.requestId = some rid)
    (hpend : mapGet st.pending rid = some entry) :
    Host.handleMessage cfg st ev
      = ({ st with
           clearedTimers := st.clearedTimers ++ [entry.timeout],
           pending := mapDelete st.pending rid,
           settled := st.settled ++
             [(rid, if ev.data.success == some true
                    then Settle.resolved ev.data.payload
                    else Settle.rejected
                      (jsOrDefault ev.data.error "Unknown error"))] }, {}) := by
  cases hs : (ev.data.success == some true) <;>
    simp [Host.handleMessage, horig, hch, hty, hrid, hpend, hs,
      MessageType.RESIZE, MessageType.RESPONSE]

/-- C2: for a pending, not yet settled request: if the timeout fires first,
the promise is rejected with the timeout error and the entry removed, and a
late Response is then a no-op; if a matching Response arrives first, the
timer is cleared, the entry removed and the promise settled exactly once, and
a later timeout firing is a no-op — exactly one of resolution and rejection
occurs on either order. -/
theorem C2_timeout_rejects_and_settlement_exclusive (cfg : Host.Config)
    (st : Host.State) (rid : String) (entry : Host.PendingEntry) (tms : Nat)
    (ev : MessageEvent)
    (hpend : mapGet st.pending rid = some entry)
    (hcount : settleCount st.settled rid = 0)
    (horig : isValidMessageOrigin cfg.selfOrigin ev cfg.targetOrigin = true)
    (hch : ev.data.channelId = some cfg.channelId)
    (hty : ev.data.type = some MessageType.RESPONSE)
    (hrid : ev.data.requestId = some rid) :
    ((Host.fireTimeout tms rid st).settled
        = st.settled ++ [(rid, Settle.rejected (timeoutError tms))])
    ∧ (mapGet (Host.fireTimeout tms rid st).pending rid = none)
    ∧ (settleCount (Host.fireTimeout tms rid st).settled rid = 1)
    ∧ (Host.handleMessage cfg (Host.fireTimeout tms rid st) ev
        = (Host.fireTimeout tms rid st, {}))
    ∧ (settleCount (Host.handleMessage cfg st ev).1.settled rid = 1)
    ∧ (entry.timeout ∈ (Host.handleMessage cfg st ev).1.clearedTimers)
    ∧ (mapGet (Host.handleMessage cfg st ev).1.pending rid = none)
    ∧ (Host.fireTimeout tms rid (Host.handleMessage cfg st ev).1
        = (Host.handleMessage cfg st ev).1) := by
  have hTset : (Host.fireTimeout tms rid st).settled
      = st.settled ++ [(rid, Settle.rejected (timeoutError tms))] := by
    unfold Host.fireTimeout
    rw [hpend]
  have hTpend : (Host.fireTimeout tms rid st).pending
      = mapDelete st.pending rid := by
    unfold Host.fireTimeout
    rw [hpend]
  have hR := host_response_step cfg st ev rid entry horig hch hty hrid hpend
  have hRpend : mapGet (Host.handleMessage cfg st ev).1.pending rid = none := by
    rw [hR]
    exact mapGet_mapDelete_self st.pending rid
  refine ⟨hTset, ?_, ?_, ?_, ?_, ?_, hRpend, ?_⟩
  · rw [hTpend]
    exact mapGet_mapDelete_self st.pending rid
  · rw [hTset, settleCount_append_single, hcount]
  · exact host_stale_response_noop cfg (Host.fireTimeout tms rid st) ev rid
      hty hrid (by rw [hTpend]; exact mapGet_mapDelete_self st.pending rid)
  · rw [hR]
    simp only
    rw [settleCount_append_single, hcount]
  · rw [hR]
    simp
  · unfold Host.fireTimeout
    rw [hRpend]

/-- C2 witness at concrete inputs: request r1 with timer 5 pending and
unsettled; the timeout path settles it once, the response path settles it
once, and each order makes the second event a no-op. -/
theorem C2_witness :
    mapGet exHostState.pending "r1" = some { timeout := 5 }
    ∧ settleCount exHostState.settled "r1" = 0
    ∧ ((Host.fireTimeout 5000 "r1" exHostState).settled
        = exHostState.settled
          ++ [("r1", Settle.rejected (timeoutError 5000))])
    ∧ settleCount (Host.fireTimeout 5000 "r1" exHostState).settled "r1" = 1
    ∧ Host.handleMessage exHostCfg (Host.fireTimeout 5000 "r1" exHostState)
        exRespEv = (Host.fireTimeout 5000 "r1" exHostState, {})
    ∧ settleCount
        (Host.handleMessage exHostCfg exHostState exRespEv).1.settled "r1" = 1
    ∧ Host.fireTimeout 5000 "r1"
        (Host.handleMessage exHostCfg exHostState exRespEv).1
      = (Host.handleMessage exHostCfg exHostState exRespEv).1 := by
  have h := C2_timeout_rejects_and_settlement_exclusive exHostCfg exHostState
    "r1" { timeout := 5 } 5000 exRespEv rfl rfl rfl rfl rfl rfl
  exact ⟨rfl, rfl, h.1, h.2.2.1, h.2.2.2.1, h.2.2.2.2.1, h.2.2.2.2.2.2.2⟩

/-- Helper: after any dispatch on a host state with an empty pending map, the
settlement log is unchanged — no promise can be resolved or rejected. -/
theorem host_no_settle_when_pending_empty (cfg : Host.Config)
    (st : Host.State) (ev : MessageEvent) (hp : st.pending = []) :
    (Host.handleMessage cfg st ev).1.settled = st.settled := by
  unfold Host.handleMessage
  cases isValidMessageOrigin cfg.selfOrigin ev cfg.targetOrigin
  · rfl
  · simp only [Bool.not_true, Bool.false_eq_true, if_false]
    cases (ev.data.channelId != some cfg.channelId)
    · simp only [Bool.false_eq_true, if_false]
      cases (ev.data.type == some MessageType.RESIZE)
      · simp only [Bool.false_eq_true, if_false]
        cases (ev.data.type == some MessageType.RESPONSE)
        · simp
        · simp only [if_true]
          cases ev.data.requestId with
          | none => rfl
          | some rid =>
              rw [hp]
              rfl
      · simp only [if_true]
        cases ev.data.height with
        | none => rfl
        | some h => rfl
    · simp

/-- C3 counterexample: the claim says every request still pending at teardown
has its promise forcibly rejected; but the cleanup effect of
src/unnamed/part_002 only clears the timers and empties the pending map — for
the pending request r1 the settlement log stays empty after cleanup, so its
promise is neither resolved nor rejected. -/
theorem C3_counterexample :
    mapGet exHostState.pending "r1" = some { timeout := 5 }
    ∧ settleCount exHostState.settled "r1" = 0
    ∧ (Host.cleanup exHostState).settled = []
    ∧ settleCount (Host.cleanup exHostState).settled "r1" = 0
    ∧ (Host.cleanup exHostState).clearedTimers = [5]
    ∧ (Host.cleanup exHostState).pending = [] :=
  ⟨rfl, rfl, rfl, rfl, rfl, rfl⟩

/-- C3 amended: on teardown the cleanup clears every pending request's timer
and empties the pending map, so no timeout rejection and no resolution can
occur afterwards (a later timer callback is a no-op and no dispatch on the
cleaned state can settle anything); but the still-pending promises are not
rejected — their settlement log is left unchanged, so they stay unsettled
forever. -/
theorem C3_amended_cleanup_clears_but_never_rejects (st : Host.State) :
    (Host.cleanup st).pending = []
    ∧ (Host.cleanup st).clearedTimers
        = st.clearedTimers ++ st.pending.map (fun p => p.2.timeout)
    ∧ (Host.cleanup st).settled = st.settled
    ∧ (∀ tms rid, Host.fireTimeout tms rid (Host.cleanup st)
        = Host.cleanup st)
    ∧ (∀ cfg ev, (Host.handleMessage cfg (Host.cleanup st) ev).1.settled
        = st.settled) := by
  refine ⟨rfl, rfl, rfl, ?_, ?_⟩
  · intro tms rid
    unfold Host.fireTimeout
    have hnone : mapGet (Host.cleanup st).pending rid = none := rfl
    rw [hnone]
  · intro cfg ev
    exact host_no_settle_when_pending_empty cfg (Host.cleanup st) ev rfl

end IframeSample
